import Mathlib

/-!
Verification of the vLLM HTTP client wrappers of this repository
(src/backend/ollama_client.py and src/rag_system/utils/ollama_client.py).

The two Python modules are shallowly embedded below.  HTTP traffic is
modelled by explicit result values (a network-level failure carrying the
exception message, or a response carrying status code, parsed JSON body and
raw text), since the `requests` library is an external collaborator.  JSON
values are modelled by an inductive type whose number constructor stores the
numeric lexeme verbatim (the client never inspects numbers).  Python
exceptions that the client code can raise or catch are modelled by `PyExc`;
`requests.exceptions.RequestException` (the only class the client catches,
covering timeouts, connection and DNS failures and `raise_for_status`) is
the `requestException` constructor.
-/

namespace VLLMClient

/-- JSON values as produced by `json.loads` / `response.json()`.  Numbers
keep their source lexeme, because the embedded client code never inspects a
numeric value.  Object fields keep the textual order of the document. -/
inductive Json where
  | null : Json
  | bool (b : Bool) : Json
  | num (lexeme : String) : Json
  | str (s : String) : Json
  | arr (items : List Json) : Json
  | obj (fields : List (String × Json)) : Json

/-- Python exceptions relevant to the client code.  `requestException`
stands for `requests.exceptions.RequestException` and all its subclasses
(`Timeout`, `ConnectionError`, `HTTPError`, ...), which is the only class
the client ever catches around a request. -/
inductive PyExc where
  | keyError (k : String)
  | indexError
  | typeError
  | attributeError
  | requestException (msg : String)
deriving DecidableEq

/-- Dictionary lookup with `json.loads` duplicate-key semantics: a later
binding for the same key wins (Python dicts keep the last value). -/
def jlookup (kvs : List (String × Json)) (k : String) : Option Json :=
  match kvs with
  | [] => none
  | (k2, v) :: rest =>
    match jlookup rest k with
    | some v2 => some v2
    | none => if k2 = k then some v else none

/-- Python subscription `j[k]` on a parsed JSON value: a `KeyError` when the
key is absent from a dict, a `TypeError` when the value is not a dict
(indexing a list or a string with a string key raises `TypeError`). -/
def getKey (j : Json) (k : String) : Except PyExc Json :=
  match j with
  | .obj kvs =>
    match jlookup kvs k with
    | some v => .ok v
    | none => .error (.keyError k)
  | _ => .error .typeError

/-- Python subscription `j[0]`: `IndexError` on an empty list, `TypeError`
when the value is not a list (approximating Python at non-list values; the
client only reaches this with list-shaped or invalid bodies). -/
def getFirst (j : Json) : Except PyExc Json :=
  match j with
  | .arr [] => .error .indexError
  | .arr (x :: _) => .ok x
  | _ => .error .typeError

/-- An HTTP response as seen through `requests`: status code, the parsed
JSON body (`response.json()`), and the raw text (`response.text`).  The
model covers responses whose body is well-formed JSON; every response the
claims quantify over has one. -/
structure HttpResponse where
  status : Nat
  body : Json
  text : String

/-- Outcome of issuing a request: either a network-level failure
(`requests.exceptions.RequestException`: timeout, connection refused, DNS
failure, ...) carrying the exception text, or a response. -/
inductive NetResult where
  | failure (msg : String)
  | success (r : HttpResponse)

/-- `response.raise_for_status()`: raises `HTTPError` (a subclass of
`RequestException`) exactly for status codes 400 and above. -/
def raiseForStatus (status : Nat) : Except PyExc Unit :=
  if 400 ≤ status then .error (.requestException ("HTTP error " ++ toString status)) else .ok ()

/-! ### A model of `json.loads` on a single line

The streaming loops call `json.loads` on each server-sent-event line and
skip lines that fail to parse.  The parser below follows the JSON grammar
(strict number syntax, the standard escapes, `\uXXXX` without surrogate
pairing, no `NaN`/`Infinity` extensions); recursion is by fuel, with fuel
`length + 2`, which is enough since every recursive step first consumes at
least one character. -/

/-- JSON insignificant whitespace. -/
def jsonWs (c : Char) : Bool :=
  c = ' ' || c = '\t' || c = '\n' || c = '\r'

def skipWs : List Char → List Char
  | [] => []
  | c :: cs => if jsonWs c then skipWs cs else c :: cs

def hexDigit? (c : Char) : Option Nat :=
  if '0' ≤ c ∧ c ≤ '9' then some (c.toNat - 48)
  else if 'a' ≤ c ∧ c ≤ 'f' then some (c.toNat - 87)
  else if 'A' ≤ c ∧ c ≤ 'F' then some (c.toNat - 55)
  else none

/-- Body of a JSON string after the opening quote: returns the decoded
characters and the remainder after the closing quote. -/
def parseStringBody : List Char → Option (List Char × List Char)
  | [] => none
  | '"' :: cs => some ([], cs)
  | '\\' :: 'u' :: h1 :: h2 :: h3 :: h4 :: cs =>
    match hexDigit? h1, hexDigit? h2, hexDigit? h3, hexDigit? h4 with
    | some a, some b, some c, some d =>
      (parseStringBody cs).map (fun p => (Char.ofNat (a * 4096 + b * 256 + c * 16 + d) :: p.1, p.2))
    | _, _, _, _ => none
  | '\\' :: e :: cs =>
    let cont (ch : Char) : Option (List Char × List Char) :=
      (parseStringBody cs).map (fun p => (ch :: p.1, p.2))
    if e = '"' then cont '"'
    else if e = '\\' then cont '\\'
    else if e = '/' then cont '/'
    else if e = 'n' then cont '\n'
    else if e = 't' then cont '\t'
    else if e = 'r' then cont '\r'
    else if e = 'b' then cont (Char.ofNat 8)
    else if e = 'f' then cont (Char.ofNat 12)
    else none
  | c :: cs =>
    if c.toNat < 32 then none
    else (parseStringBody cs).map (fun p => (c :: p.1, p.2))

/-- Longest digit run at the front. -/
def spanDigits : List Char → List Char × List Char
  | [] => ([], [])
  | c :: cs =>
    if c.isDigit then
      let p := spanDigits cs
      (c :: p.1, p.2)
    else ([], c :: cs)

/-- JSON integer part: `0` or a nonzero digit followed by digits. -/
def parseIntPart : List Char → Option (List Char × List Char)
  | [] => none
  | c :: cs =>
    if c = '0' then some (['0'], cs)
    else if c.isDigit then
      let p := spanDigits cs
      some (c :: p.1, p.2)
    else none

/-- Optional JSON fraction part. -/
def parseFracPart : List Char → List Char × List Char
  | '.' :: cs =>
    match spanDigits cs with
    | ([], _) => ([], '.' :: cs)
    | (ds, rest) => ('.' :: ds, rest)
  | l => ([], l)

/-- Optional JSON exponent part. -/
def parseExpPart : List Char → List Char × List Char
  | [] => ([], [])
  | c :: cs =>
    if c = 'e' ∨ c = 'E' then
      match cs with
      | s :: cs2 =>
        if s = '+' ∨ s = '-' then
          match spanDigits cs2 with
          | ([], _) => ([], c :: cs)
          | (ds, rest) => (c :: s :: ds, rest)
        else
          match spanDigits cs with
          | ([], _) => ([], c :: cs)
          | (ds, rest) => (c :: ds, rest)
      | [] => ([], [c])
    else ([], c :: cs)

/-- A JSON number token; the lexeme is kept verbatim. -/
def parseNumberTok (l : List Char) : Option (List Char × List Char) :=
  match l with
  | '-' :: rest =>
    (parseIntPart rest).map (fun p =>
      let f := parseFracPart p.2
      let e := parseExpPart f.2
      ('-' :: p.1 ++ f.1 ++ e.1, e.2))
  | _ =>
    (parseIntPart l).map (fun p =>
      let f := parseFracPart p.2
      let e := parseExpPart f.2
      (p.1 ++ f.1 ++ e.1, e.2))

mutual

/-- A JSON value, by fuel. -/
def parseValue : Nat → List Char → Option (Json × List Char)
  | 0, _ => none
  | fuel + 1, l =>
    match skipWs l with
    | [] => none
    | c :: cs =>
      if c = '"' then (parseStringBody cs).map (fun p => (Json.str (String.mk p.1), p.2))
      else if c = '\x7b' then
        match skipWs cs with
        | '\x7d' :: rest => some (Json.obj [], rest)
        | l2 => (parseObjItems fuel l2).map (fun p => (Json.obj p.1, p.2))
      else if c = '[' then
        match skipWs cs with
        | ']' :: rest => some (Json.arr [], rest)
        | l2 => (parseArrItems fuel l2).map (fun p => (Json.arr p.1, p.2))
      else
        match c :: cs with
        | 't' :: 'r' :: 'u' :: 'e' :: rest => some (Json.bool true, rest)
        | 'f' :: 'a' :: 'l' :: 's' :: 'e' :: rest => some (Json.bool false, rest)
        | 'n' :: 'u' :: 'l' :: 'l' :: rest => some (Json.null, rest)
        | l3 => (parseNumberTok l3).map (fun p => (Json.num (String.mk p.1), p.2))

/-- Nonempty comma-separated item list of a JSON array, up to `]`. -/
def parseArrItems : Nat → List Char → Option (List Json × List Char)
  | 0, _ => none
  | fuel + 1, l =>
    match parseValue fuel l with
    | none => none
    | some (v, rest) =>
      match skipWs rest with
      | ',' :: rest2 => (parseArrItems fuel rest2).map (fun p => (v :: p.1, p.2))
      | ']' :: rest2 => some ([v], rest2)
      | _ => none

/-- Nonempty comma-separated member list of a JSON object, up to the
closing brace. -/
def parseObjItems : Nat → List Char → Option (List (String × Json) × List Char)
  | 0, _ => none
  | fuel + 1, l =>
    match skipWs l with
    | '"' :: cs =>
      match parseStringBody cs with
      | none => none
      | some (key, rest) =>
        match skipWs rest with
        | ':' :: rest2 =>
          match parseValue fuel rest2 with
          | none => none
          | some (v, rest3) =>
            match skipWs rest3 with
            | ',' :: rest4 => (parseObjItems fuel rest4).map (fun p => ((String.mk key, v) :: p.1, p.2))
            | '\x7d' :: rest4 => some ([(String.mk key, v)], rest4)
            | _ => none
        | _ => none
    | _ => none

end

/-- `json.loads` on a whole line: a single JSON value with nothing but
whitespace around it. -/
def parseJson (s : String) : Option Json :=
  let l := s.toList
  match parseValue (l.length + 2) l with
  | some (j, rest) => if skipWs rest = [] then some j else none
  | none => none

/-! ### Thinking-tag removal (src/backend/ollama_client.py, chat lines 76-80)

A `re.sub` deleting non-greedy `think`-tag spans with DOTALL and IGNORECASE
flags, followed by the same for the `thinking` tag and a final `.strip()`.
The scanner below is
the global non-greedy substitution with empty replacement: at each
position, if the (case-insensitive) open tag matches, the earliest
following close tag ends the match and scanning resumes after it; if no
close tag follows, or the open tag does not match, the character is kept
and scanning moves one position right.  `DOTALL` is implicit: the scanner
treats newlines like any character. -/

/-- Case-insensitive literal match of `tag` at the front of the input,
mirroring `re.IGNORECASE` on a literal pattern. -/
def matchCI : List Char → List Char → Bool
  | [], _ => true
  | _ :: _, [] => false
  | t :: ts, c :: cs => (t.toLower == c.toLower) && matchCI ts cs

/-- Remainder of the input just after the earliest case-insensitive
occurrence of `close`, if any. -/
def findCloseRem (close : List Char) : List Char → Option (List Char)
  | [] => none
  | c :: cs =>
    if matchCI close (c :: cs) then some (List.drop close.length (c :: cs))
    else findCloseRem close cs

/-- Fuel-driven scanner for the non-greedy empty substitution; with fuel at
least the input length it realises `re.sub(open.*?close, empty)`. -/
def removeSpansFuel (openT closeT : List Char) : Nat → List Char → List Char
  | _, [] => []
  | 0, l => l
  | fuel + 1, c :: cs =>
    if matchCI openT (c :: cs) then
      match findCloseRem closeT (List.drop openT.length (c :: cs)) with
      | some rem => removeSpansFuel openT closeT fuel rem
      | none => c :: removeSpansFuel openT closeT fuel cs
    else c :: removeSpansFuel openT closeT fuel cs

/-- `re.sub(open.*?close, empty, l, flags=DOTALL|IGNORECASE)` on a
character list. -/
def removeSpans (openT closeT : List Char) (l : List Char) : List Char :=
  removeSpansFuel openT closeT l.length l

/-- The four tag literals of the two `re.sub` calls. -/
def thinkO : List Char := ['<', 't', 'h', 'i', 'n', 'k', '>']

def thinkC : List Char := ['<', '/', 't', 'h', 'i', 'n', 'k', '>']

def thinkingO : List Char := ['<', 't', 'h', 'i', 'n', 'k', 'i', 'n', 'g', '>']

def thinkingC : List Char := ['<', '/', 't', 'h', 'i', 'n', 'k', 'i', 'n', 'g', '>']

/-- Characters stripped by Python `str.strip()` (the ASCII whitespace
subset; the claims use no exotic Unicode whitespace). -/
def isPySpace (c : Char) : Bool :=
  c = ' ' || c = '\t' || c = '\n' || c = '\r' || c = '\x0b' || c = '\x0c'

/-- Python `str.strip()` on a character list. -/
def pyStrip (l : List Char) : List Char :=
  ((l.dropWhile isPySpace).reverse.dropWhile isPySpace).reverse

/-- Python `str.strip()`. -/
def pyStripStr (s : String) : String :=
  String.mk (pyStrip s.toList)

/-- Lines 76-80 of src/backend/ollama_client.py: when `enable_thinking` is
false, remove `think` spans, then `thinking` spans, then strip; otherwise
return the text unchanged. -/
def postprocessThinking (enableThinking : Bool) (s : String) : String :=
  if enableThinking = false then
    String.mk (pyStrip (removeSpans thinkingO thinkingC (removeSpans thinkO thinkC s.toList)))
  else s

/-! ### The client operations (response handling) -/

/-- `is_server_running` (src/backend/ollama_client.py lines 17-23): true
exactly when the `/v1/models` probe answers HTTP 200; every
`RequestException` is caught and yields false.  The function is total: it
can never raise. -/
def is_server_running (net : NetResult) : Bool :=
  match net with
  | .failure _ => false
  | .success r => r.status == 200

/-- The per-model extraction `[model["id"] for model in models_data]` of
`list_models`: Python raises `KeyError` for an item without an `id` field
and `TypeError` for a non-dict item; such an exception is not caught. -/
def extractIds : List Json → Except PyExc (List Json)
  | [] => .ok []
  | m :: ms => do
    let i ← getKey m "id"
    let rest ← extractIds ms
    .ok (i :: rest)

/-- `list_models` (src/backend/ollama_client.py lines 25-35).  A network
failure is caught (`RequestException`) and gives `[]`; a non-200 status
gives `[]`; on 200 the ids are read off `body.get("data", [])` in order.
A non-list `data` value is modelled as `TypeError` and a non-dict body as
`AttributeError` (`.get` on a non-dict); the claims never reach either. -/
def list_models (net : NetResult) : Except PyExc (List Json) :=
  match net with
  | .failure _ => .ok []
  | .success r =>
    if r.status = 200 then
      match r.body with
      | .obj kvs =>
        match (jlookup kvs "data").getD (Json.arr []) with
        | .arr ms => extractIds ms
        | _ => .error .typeError
      | _ => .error .attributeError
    else .ok []

/-- `chat` (src/backend/ollama_client.py lines 47-87), response side.  On a
network failure the caught exception text is embedded; on a non-200 status
the status and body text are embedded; on 200 the code reads
`result["choices"][0]["message"]["content"]` (any failure of that chain is
an uncaught exception) and post-processes thinking tags.  A non-string
content under `enable_thinking=false` is a `TypeError` from `re.sub`; under
`enable_thinking=true` the raw value is returned. -/
def chat (net : NetResult) (enableThinking : Bool) : Except PyExc Json :=
  match net with
  | .failure msg => .ok (.str ("Connection error: " ++ msg))
  | .success r =>
    if r.status = 200 then do
      let choices ← getKey r.body "choices"
      let c0 ← getFirst choices
      let m ← getKey c0 "message"
      let content ← getKey m "content"
      match content, enableThinking with
      | .str s, _ => .ok (.str (postprocessThinking enableThinking s))
      | v, true => .ok v
      | _, false => .error .typeError
    else .ok (.str ("Error: " ++ toString r.status ++ " - " ++ r.text))

/-- The `line_text[6:]` unwrapping of a server-sent-event line when it
starts with the `data: ` marker (both streaming loops):
`startswith('data: ')` followed by the six-character slice `[6:]`. -/
def unwrapSSE (l : String) : String :=
  match l.toList with
  | 'd' :: 'a' :: 't' :: 'a' :: ':' :: ' ' :: rest => String.mk rest
  | _ => l

/-- Substring occurrence on character lists (Python `needle in hay`). -/
def hasInfix (needle : List Char) : List Char → Bool
  | [] => needle.isEmpty
  | c :: cs => needle.isPrefixOf (c :: cs) || hasInfix needle cs

/-- Python `tag in content.lower()` for a lowercase literal tag. -/
def lowerContains (s : String) (tag : List Char) : Bool :=
  hasInfix tag (s.toList.map Char.toLower)

/-- The `data["choices"][0].get("delta", {}).get("content", "")` extraction
of the chat-shaped streaming loops, guarded by
`if "choices" in data and len(data["choices"]) > 0`.  `none` means the line
contributes nothing; non-dict intermediate values (where Python would raise)
are outside every claim and modelled as contributing nothing. -/
def chatDeltaContent (data : Json) : Option String :=
  match data with
  | .obj kvs =>
    match jlookup kvs "choices" with
    | some (.arr (c0 :: _)) =>
      match c0 with
      | .obj ckvs =>
        match (jlookup ckvs "delta").getD (Json.obj []) with
        | .obj dkvs =>
          match (jlookup dkvs "content").getD (Json.str "") with
          | .str s => some s
          | _ => none
        | _ => none
      | _ => none
    | _ => none
  | _ => none

/-- The `data["choices"][0].get("text", "")` extraction of the plain
completion streaming loop, with the same guard. -/
def textChunkContent (data : Json) : Option String :=
  match data with
  | .obj kvs =>
    match jlookup kvs "choices" with
    | some (.arr (c0 :: _)) =>
      match c0 with
      | .obj ckvs =>
        match (jlookup ckvs "text").getD (Json.str "") with
        | .str s => some s
        | _ => none
      | _ => none
    | _ => none
  | _ => none

/-- The line loop of `chat_stream` (src/backend/ollama_client.py lines
114-137): skip empty lines, unwrap the `data: ` marker, stop at `[DONE]`,
skip lines that fail `json.loads`, and yield each nonempty delta content —
unless `enable_thinking` is false and the chunk contains a thinking tag, in
which case the whole chunk is dropped. -/
def chatStreamLines (enableThinking : Bool) : List String → List String
  | [] => []
  | l :: ls =>
    if l = "" then chatStreamLines enableThinking ls
    else
      let t := unwrapSSE l
      if pyStripStr t = "[DONE]" then []
      else
        match parseJson t with
        | none => chatStreamLines enableThinking ls
        | some data =>
          match chatDeltaContent data with
          | some s =>
            if s = "" then chatStreamLines enableThinking ls
            else if !enableThinking && (lowerContains s thinkO || lowerContains s thinkingO) then
              chatStreamLines enableThinking ls
            else s :: chatStreamLines enableThinking ls
          | none => chatStreamLines enableThinking ls

/-- A streamed HTTP exchange: a network failure, or a response with its
status, raw text (used for the error message) and the lines delivered by
`iter_lines()`. -/
inductive StreamResult where
  | failure (msg : String)
  | success (status : Nat) (text : String) (lines : List String)

/-- `chat_stream` (src/backend/ollama_client.py lines 89-142) as the list
of yielded fragments: the line loop on 200, a single formatted error
string otherwise. -/
def chat_stream (net : StreamResult) (enableThinking : Bool) : List String :=
  match net with
  | .failure msg => ["Connection error: " ++ msg]
  | .success status text lines =>
    if status = 200 then chatStreamLines enableThinking lines
    else ["Error: " ++ toString status ++ " - " ++ text]

/-- The chat-shaped line loop of `stream_completion`
(src/rag_system/utils/ollama_client.py lines 258-274, taken when images are
present): like `chatStreamLines` but with no thinking-tag filter. -/
def streamCompletionImageLines : List String → List String
  | [] => []
  | l :: ls =>
    if l = "" then streamCompletionImageLines ls
    else
      let t := unwrapSSE l
      if pyStripStr t = "[DONE]" then []
      else
        match parseJson t with
        | none => streamCompletionImageLines ls
        | some data =>
          match chatDeltaContent data with
          | some s => if s = "" then streamCompletionImageLines ls else s :: streamCompletionImageLines ls
          | none => streamCompletionImageLines ls

/-- The text-shaped line loop of `stream_completion`
(src/rag_system/utils/ollama_client.py lines 278-293, taken when no images
are present). -/
def streamCompletionTextLines : List String → List String
  | [] => []
  | l :: ls =>
    if l = "" then streamCompletionTextLines ls
    else
      let t := unwrapSSE l
      if pyStripStr t = "[DONE]" then []
      else
        match parseJson t with
        | none => streamCompletionTextLines ls
        | some data =>
          match textChunkContent data with
          | some s => if s = "" then streamCompletionTextLines ls else s :: streamCompletionTextLines ls
          | none => streamCompletionTextLines ls

/-- A Pillow image, abstracted to its PNG-base64 serialisation: the PIL
`save(format=PNG)` plus `base64.b64encode` round trip of
`_image_to_base64` is external library code, so an image is identified
with the string that `_image_to_base64` produces for it. -/
structure PILImage where
  png64 : String

/-- `_image_to_base64` (src/rag_system/utils/ollama_client.py lines
24-28), under the abstraction above. -/
def imageToBase64 (img : PILImage) : String := img.png64

/-- `generate_embedding` (src/rag_system/utils/ollama_client.py lines
30-44): `RequestException` (network failure or `raise_for_status` on a
status of 400 and above) is caught and gives `[]`; on a passing status,
`result["data"][0]["embedding"]` behind the guard
`if "data" in result and len(result["data"]) > 0`, else `[]`.  A missing
`embedding` key in the first item is an uncaught `KeyError`; non-dict or
non-list shapes (where Python semantics diverge) are modelled as
`TypeError` and are outside every claim. -/
def generate_embedding (net : NetResult) : Except PyExc Json :=
  match net with
  | .failure _ => .ok (.arr [])
  | .success r =>
    if 400 ≤ r.status then .ok (.arr [])
    else
      match r.body with
      | .obj kvs =>
        match jlookup kvs "data" with
        | some (.arr (d0 :: _)) => getKey d0 "embedding"
        | some (.arr []) => .ok (.arr [])
        | some _ => .error .typeError
        | none => .ok (.arr [])
      | _ => .error .typeError

/-- `generate_completion` (src/rag_system/utils/ollama_client.py lines
46-128), response side.  `RequestException` — a network failure or
`raise_for_status` on status 400 and above — is caught and gives the empty
dict; otherwise the code reads `choices[0]["message"]["content"]` when
images were sent (chat endpoint) and `choices[0]["text"]` when not, and
wraps it as a `response`/`done` record; a failing read is an uncaught
exception. -/
def generate_completion (images : List PILImage) (net : NetResult) : Except PyExc Json :=
  match net with
  | .failure _ => .ok (.obj [])
  | .success r =>
    if 400 ≤ r.status then .ok (.obj [])
    else if images.isEmpty then do
      let choices ← getKey r.body "choices"
      let c0 ← getFirst choices
      let t ← getKey c0 "text"
      .ok (.obj [("response", t), ("done", .bool true)])
    else do
      let choices ← getKey r.body "choices"
      let c0 ← getFirst choices
      let m ← getKey c0 "message"
      let content ← getKey m "content"
      .ok (.obj [("response", content), ("done", .bool true)])

/-! ### Request construction

Each network call site, as the endpoint it targets, the JSON payload it
sends, the explicit `timeout=` keyword it passes (or `none` when the call
passes no timeout, in which case `requests` waits indefinitely), and
whether it streams. -/

inductive Endpoint where
  | models
  | chatCompletions
  | completions
  | embeddings
deriving DecidableEq

/-- One HTTP call as issued by a client operation. -/
structure RequestSpec where
  httpMethod : String
  endpoint : Endpoint
  payload : Option Json
  timeoutSecs : Option Nat
  streamed : Bool

/-- The `{"role": "user", "content": message}` entry appended by `chat`
and `chat_stream`. -/
def userMessage (message : String) : Json :=
  .obj [("role", .str "user"), ("content", .str message)]

/-- `is_server_running`: `GET /v1/models` with `timeout=5`. -/
def isServerRunningRequest : RequestSpec :=
  ⟨"GET", .models, none, some 5, false⟩

/-- `list_models` (src/backend/ollama_client.py line 28): `GET /v1/models`
with no `timeout=` keyword. -/
def listModelsRequest : RequestSpec :=
  ⟨"GET", .models, none, none, false⟩

/-- `chat` request (src/backend/ollama_client.py lines 56-69):
`POST /v1/chat/completions`, `timeout=180`. -/
def chatRequest (model : String) (messages : List Json) : RequestSpec :=
  ⟨"POST", .chatCompletions,
    some (.obj [("model", .str model), ("messages", .arr messages),
      ("stream", .bool false), ("temperature", .num "0.7"), ("top_p", .num "0.9")]),
    some 180, false⟩

/-- `chat_stream` request (src/backend/ollama_client.py lines 97-111):
`POST /v1/chat/completions` with `stream=True`, `timeout=180`. -/
def chatStreamRequest (model : String) (messages : List Json) : RequestSpec :=
  ⟨"POST", .chatCompletions,
    some (.obj [("model", .str model), ("messages", .arr messages),
      ("stream", .bool true), ("temperature", .num "0.7"), ("top_p", .num "0.9")]),
    some 180, true⟩

/-- The `{"type": "text", "text": prompt}` part opening the multimodal
content array. -/
def textPart (prompt : String) : Json :=
  .obj [("type", .str "text"), ("text", .str prompt)]

/-- One `{"type": "image_url", ...}` part per image, with the
`data:image/png;base64,` URI built by `generate_completion`. -/
def imagePart (img : PILImage) : Json :=
  .obj [("type", .str "image_url"),
    ("image_url", .obj [("url", .str ("data:image/png;base64," ++ imageToBase64 img))])]

/-- The single user message `generate_completion` builds when images are
supplied: the prompt text part followed by one image part per image, in
order. -/
def multimodalMessage (prompt : String) (images : List PILImage) : Json :=
  .obj [("role", .str "user"), ("content", .arr (textPart prompt :: images.map imagePart))]

/-- `generate_completion` request (src/rag_system/utils/ollama_client.py
lines 65-118): with images (`if images:` truthy) a chat-completion request
carrying the multimodal message, otherwise a plain completion request
carrying the prompt; neither call passes a `timeout=` keyword. -/
def generateCompletionRequest (model prompt : String) (images : List PILImage) : RequestSpec :=
  if images.isEmpty then
    ⟨"POST", .completions,
      some (.obj [("model", .str model), ("prompt", .str prompt), ("stream", .bool false),
        ("max_tokens", .num "1024"), ("temperature", .num "0.7")]),
      none, false⟩
  else
    ⟨"POST", .chatCompletions,
      some (.obj [("model", .str model), ("messages", .arr [multimodalMessage prompt images]),
        ("stream", .bool false), ("max_tokens", .num "1024"), ("temperature", .num "0.7")]),
      none, false⟩

/-- `generate_completion_async` request (src/rag_system/utils/ollama_client.py
lines 134-201): same routing, issued through an `httpx.AsyncClient` built
with the `timeout` parameter. -/
def generateCompletionAsyncRequest (model prompt : String) (images : List PILImage)
    (timeoutSecs : Nat) : RequestSpec :=
  if images.isEmpty then
    ⟨"POST", .completions,
      some (.obj [("model", .str model), ("prompt", .str prompt), ("stream", .bool false),
        ("max_tokens", .num "1024"), ("temperature", .num "0.7")]),
      some timeoutSecs, false⟩
  else
    ⟨"POST", .chatCompletions,
      some (.obj [("model", .str model), ("messages", .arr [multimodalMessage prompt images]),
        ("stream", .bool false), ("max_tokens", .num "1024"), ("temperature", .num "0.7")]),
      some timeoutSecs, false⟩

/-- `generate_completion_async` called without a `timeout` argument: the
Python default is 180. -/
def generateCompletionAsyncRequestDefault (model prompt : String) (images : List PILImage) : RequestSpec :=
  generateCompletionAsyncRequest model prompt images 180

/-- `stream_completion` request (src/rag_system/utils/ollama_client.py
lines 224-256, 276): same routing with `stream=True`; no `timeout=`
keyword on either call. -/
def streamCompletionRequest (model prompt : String) (images : List PILImage) : RequestSpec :=
  if images.isEmpty then
    ⟨"POST", .completions,
      some (.obj [("model", .str model), ("prompt", .str prompt), ("stream", .bool true),
        ("max_tokens", .num "1024"), ("temperature", .num "0.7")]),
      none, true⟩
  else
    ⟨"POST", .chatCompletions,
      some (.obj [("model", .str model), ("messages", .arr [multimodalMessage prompt images]),
        ("stream", .bool true), ("max_tokens", .num "1024"), ("temperature", .num "0.7")]),
      none, true⟩

/-- `generate_embedding` request (src/rag_system/utils/ollama_client.py
lines 32-36): `POST /v1/embeddings` with no `timeout=` keyword. -/
def embeddingRequest (model text : String) : RequestSpec :=
  ⟨"POST", .embeddings, some (.obj [("model", .str model), ("input", .str text)]), none, false⟩

/-! ### The history heap (frame effect of chat / chat_stream)

`conversation_history` is a caller-owned Python list; a store maps list
references to their contents.  `messages = conversation_history + [...]`
evaluates `+` on lists, which allocates a fresh list, so the store is
returned unchanged — the embedding makes that heap effect explicit so it
can be stated. -/

/-- A heap of Python lists of messages, by reference. -/
def PyStore : Type := Nat → List Json

/-- Lines 49-53 of src/backend/ollama_client.py: default a `None` history
to `[]`, then build `messages` as `conversation_history + [user entry]`.
Returns the (unchanged) store and the fresh `messages` list. -/
def chatBuildMessages (st : PyStore) (historyRef : Option Nat) (message : String) :
    PyStore × List Json :=
  match historyRef with
  | none => (st, [] ++ [userMessage message])
  | some r => (st, st r ++ [userMessage message])

/-- Lines 91-94 of src/backend/ollama_client.py: the identical construction
in `chat_stream`. -/
def chatStreamBuildMessages (st : PyStore) (historyRef : Option Nat) (message : String) :
    PyStore × List Json :=
  match historyRef with
  | none => (st, [] ++ [userMessage message])
  | some r => (st, st r ++ [userMessage message])

/-! ### Side definitions used only to state theorems -/

/-- A character that cannot start a tag, even case-insensitively: its
lowercase form is not the opening angle bracket. -/
def noTagChar (c : Char) : Bool := !(c.toLower == '<')

/-- A string none of whose characters can start a tag. -/
def cleanOfTagStart (s : String) : Bool := s.toList.all noTagChar

/-- A well-formed HTTP 200 chat-completion response whose first choice
carries the given message content. -/
def chatOkResponse (s : String) : NetResult :=
  .success ⟨200,
    .obj [("choices", .arr [.obj [("message", .obj [("content", .str s)])]])], ""⟩

/-- The identifier field of one model descriptor, as an independent
checkable description of a valid `/v1/models` entry: the descriptor is a
dict and carries an `id` field. -/
def modelId? (m : Json) : Option Json :=
  match m with
  | .obj kvs => jlookup kvs "id"
  | _ => none

/-! ### Helper lemmas about the tag-span scanner -/

/-- A successful close-tag search strictly shrinks the input when the
close tag is nonempty. -/
theorem findCloseRem_length (close : List Char) (hc : close ≠ []) :
    ∀ l rem, findCloseRem close l = some rem → rem.length < l.length := by
  intro l
  induction l with
  | nil => intro rem h; simp [findCloseRem] at h
  | cons c cs ih =>
    intro rem h
    rw [findCloseRem] at h
    split at h
    · have hrem : rem = List.drop close.length (c :: cs) := by
        cases h; rfl
      subst hrem
      have h1 : 1 ≤ close.length := by
        cases close with
        | nil => exact absurd rfl hc
        | cons a as => simp
      simp [List.length_drop]
      omega
    · have := ih rem h
      simp only [List.length_cons]
      omega

/-- The scanner is insensitive to the exact fuel as soon as the fuel covers
the input length (the close tag being nonempty). -/
theorem removeSpansFuel_congr (openT closeT : List Char) (hc : closeT ≠ []) :
    ∀ f1 f2 l, l.length ≤ f1 → l.length ≤ f2 →
      removeSpansFuel openT closeT f1 l = removeSpansFuel openT closeT f2 l := by
  intro f1
  induction f1 with
  | zero =>
    intro f2 l h1 h2
    have hl : l = [] := by cases l <;> simp_all
    subst hl
    simp [removeSpansFuel]
  | succ a ih =>
    intro f2 l h1 h2
    cases l with
    | nil => simp [removeSpansFuel]
    | cons c cs =>
      cases f2 with
      | zero => simp at h2
      | succ b =>
        rw [removeSpansFuel, removeSpansFuel]
        by_cases hm : matchCI openT (c :: cs) = true
        · rw [if_pos hm, if_pos hm]
          cases hfc : findCloseRem closeT (List.drop openT.length (c :: cs)) with
          | none =>
            simp only
            have := ih b cs (by simp at h1; omega) (by simp at h2; omega)
            rw [this]
          | some rem =>
            simp only
            have hlt : rem.length < (c :: cs).length := by
              have hfl := findCloseRem_length closeT hc _ rem hfc
              have hd : (List.drop openT.length (c :: cs)).length ≤ (c :: cs).length := by
                simp [List.length_drop]
              omega
            have := ih b rem (by simp at h1 hlt ⊢; omega) (by simp at h2 hlt ⊢; omega)
            rw [this]
        · rw [if_neg hm, if_neg hm]
          have := ih b cs (by simp at h1; omega) (by simp at h2; omega)
          rw [this]

/-- One-step unfolding of `removeSpans` on a nonempty input. -/
theorem removeSpans_cons (openT closeT : List Char) (hc : closeT ≠ []) (c : Char) (cs : List Char) :
    removeSpans openT closeT (c :: cs) =
      if matchCI openT (c :: cs) then
        match findCloseRem closeT (List.drop openT.length (c :: cs)) with
        | some rem => removeSpans openT closeT rem
        | none => c :: removeSpans openT closeT cs
      else c :: removeSpans openT closeT cs := by
  show removeSpansFuel openT closeT (cs.length + 1) (c :: cs) = _
  rw [removeSpansFuel]
  by_cases hm : matchCI openT (c :: cs) = true
  · rw [if_pos hm, if_pos hm]
    cases hfc : findCloseRem closeT (List.drop openT.length (c :: cs)) with
    | none => rfl
    | some rem =>
      simp only
      have hlt : rem.length < (c :: cs).length := by
        have hfl := findCloseRem_length closeT hc _ rem hfc
        have hd : (List.drop openT.length (c :: cs)).length ≤ (c :: cs).length := by
          simp [List.length_drop]
        omega
      exact removeSpansFuel_congr openT closeT hc cs.length rem.length rem
        (by simp at hlt; omega) le_rfl
  · rw [if_neg hm, if_neg hm]
    rfl

/-- A case-insensitive literal matches any continuation of itself. -/
theorem matchCI_append_self : ∀ (t rest : List Char), matchCI t (t ++ rest) = true := by
  intro t
  induction t with
  | nil => intro rest; rfl
  | cons x xs ih =>
    intro rest
    simp [matchCI, ih rest]

/-- A tag starting with the opening angle bracket cannot match at a
character whose lowercase form is different from that bracket. -/
theorem matchCI_head_ne (ts : List Char) (c : Char) (cs : List Char)
    (h : (c.toLower == '<') = false) :
    matchCI ('<' :: ts) (c :: cs) = false := by
  rw [matchCI]
  have h1 : Char.toLower '<' = '<' := by decide
  rw [h1]
  have h2 : ('<' == c.toLower) = false := by
    simp only [beq_eq_false_iff_ne] at h ⊢
    exact fun he => h he.symm
  rw [h2, Bool.false_and]

/-- Close-tag search passes over characters that cannot start a tag. -/
theorem findCloseRem_clean_append (ts : List Char) :
    ∀ (l rest : List Char), (∀ c ∈ l, noTagChar c = true) →
      findCloseRem ('<' :: ts) (l ++ rest) = findCloseRem ('<' :: ts) rest := by
  intro l
  induction l with
  | nil => intro rest _; rfl
  | cons c cs ih =>
    intro rest h
    have hc : noTagChar c = true := h c (by simp)
    have hc2 : (c.toLower == '<') = false := by
      simpa [noTagChar] using hc
    rw [List.cons_append, findCloseRem,
      matchCI_head_ne ts c (cs ++ rest) hc2]
    simp only [Bool.false_eq_true, if_false]
    exact ih rest (fun x hx => h x (by simp [hx]))

/-- The span scanner passes over characters that cannot start a tag. -/
theorem removeSpans_clean_append (ts closeT : List Char) (hc : closeT ≠ []) :
    ∀ (l rest : List Char), (∀ c ∈ l, noTagChar c = true) →
      removeSpans ('<' :: ts) closeT (l ++ rest) = l ++ removeSpans ('<' :: ts) closeT rest := by
  intro l
  induction l with
  | nil => intro rest _; rfl
  | cons c cs ih =>
    intro rest h
    have hch : noTagChar c = true := h c (by simp)
    have hc2 : (c.toLower == '<') = false := by
      simpa [noTagChar] using hch
    rw [List.cons_append, removeSpans_cons ('<' :: ts) closeT hc,
      matchCI_head_ne ts c (cs ++ rest) hc2]
    simp only [Bool.false_eq_true, if_false]
    exact congrArg (List.cons c) (ih rest (fun x hx => h x (by simp [hx])))

/-- Core of the `think`-span removal: a span whose inner text cannot start
a tag is removed wholesale along with its delimiters. -/
theorem removeThink_wrap (m : List Char) (hm : ∀ c ∈ m, noTagChar c = true) :
    removeSpans thinkO thinkC ('A' :: (thinkO ++ (m ++ (thinkC ++ ['B'])))) = ['A', 'B'] := by
  have hcne : thinkC ≠ [] := by decide
  rw [removeSpans_cons thinkO thinkC hcne]
  have hmA : matchCI thinkO ('A' :: (thinkO ++ (m ++ (thinkC ++ ['B'])))) = false := by
    rw [show thinkO = '<' :: ['t', 'h', 'i', 'n', 'k', '>'] from rfl]
    exact matchCI_head_ne _ 'A' _ (by decide)
  rw [hmA]
  simp only [Bool.false_eq_true, if_false]
  have step2 : removeSpans thinkO thinkC (thinkO ++ (m ++ (thinkC ++ ['B']))) = ['B'] := by
    rw [show thinkO ++ (m ++ (thinkC ++ ['B'])) =
      '<' :: (['t', 'h', 'i', 'n', 'k', '>'] ++ (m ++ (thinkC ++ ['B']))) from rfl]
    rw [removeSpans_cons thinkO thinkC hcne]
    have hmatch : matchCI thinkO
        ('<' :: (['t', 'h', 'i', 'n', 'k', '>'] ++ (m ++ (thinkC ++ ['B'])))) = true := by
      exact matchCI_append_self thinkO (m ++ (thinkC ++ ['B']))
    rw [hmatch]
    simp only [if_true]
    have hdrop : List.drop thinkO.length
        ('<' :: (['t', 'h', 'i', 'n', 'k', '>'] ++ (m ++ (thinkC ++ ['B'])))) =
        m ++ (thinkC ++ ['B']) := by
      exact List.drop_left thinkO (m ++ (thinkC ++ ['B']))
    rw [hdrop]
    have hfind : findCloseRem thinkC (m ++ (thinkC ++ ['B'])) = some ['B'] := by
      rw [show thinkC = '<' :: ['/', 't', 'h', 'i', 'n', 'k', '>'] from rfl]
      rw [findCloseRem_clean_append ['/', 't', 'h', 'i', 'n', 'k', '>'] m
        (('<' :: ['/', 't', 'h', 'i', 'n', 'k', '>']) ++ ['B']) hm]
      rw [show ('<' :: ['/', 't', 'h', 'i', 'n', 'k', '>']) ++ ['B'] =
        '<' :: (['/', 't', 'h', 'i', 'n', 'k', '>'] ++ ['B']) from rfl]
      rw [findCloseRem]
      have hm2 : matchCI ('<' :: ['/', 't', 'h', 'i', 'n', 'k', '>'])
          ('<' :: (['/', 't', 'h', 'i', 'n', 'k', '>'] ++ ['B'])) = true := by
        exact matchCI_append_self ('<' :: ['/', 't', 'h', 'i', 'n', 'k', '>']) ['B']
      rw [hm2]
      simp only [if_true]
      rfl
    rw [hfind]
    show removeSpans thinkO thinkC ['B'] = ['B']
    rfl
  rw [step2]

/-- String-level statement of the removal: the chat post-processing with
thinking disabled erases a `think` span whose inner text cannot start a
tag, here between the literal fragments of the testable property. -/
theorem postprocess_think_span (mid : String) (h : cleanOfTagStart mid = true) :
    postprocessThinking false ("A<think>" ++ mid ++ "</think>B") = "AB" := by
  have hdata : ("A<think>" ++ mid ++ "</think>B").toList =
      'A' :: (thinkO ++ (mid.toList ++ (thinkC ++ ['B']))) := by
    show ("A<think>" ++ mid ++ "</think>B").data = _
    rw [String.data_append, String.data_append]
    show ('A' :: thinkO) ++ mid.data ++ (thinkC ++ ['B']) = _
    simp [List.append_assoc]
  have hclean : ∀ c ∈ mid.toList, noTagChar c = true := by
    intro c hc
    exact List.all_eq_true.mp h c hc
  show String.mk (pyStrip (removeSpans thinkingO thinkingC
    (removeSpans thinkO thinkC ("A<think>" ++ mid ++ "</think>B").toList))) = "AB"
  rw [hdata, removeThink_wrap mid.toList hclean]
  rfl

/-- The list comprehension of `list_models` agrees with the independent
per-descriptor description `modelId?`: if every descriptor yields an id,
the comprehension returns exactly those ids in order. -/
theorem extractIds_of_mapM :
    ∀ (ms : List Json) (ids : List Json), ms.mapM modelId? = some ids →
      extractIds ms = .ok ids := by
  intro ms
  induction ms with
  | nil =>
    intro ids h
    simp only [List.mapM_nil, pure, Option.some.injEq] at h
    subst h
    rfl
  | cons m ms ih =>
    intro ids h
    rw [List.mapM_cons] at h
    cases hm : modelId? m with
    | none => rw [hm] at h; simp at h
    | some i =>
      rw [hm] at h
      cases hms : ms.mapM modelId? with
      | none => rw [hms] at h; simp at h
      | some is =>
        rw [hms] at h
        simp only [Option.bind_eq_bind, Option.some_bind, pure, Option.some.injEq] at h
        subst h
        have hk : getKey m "id" = .ok i := by
          cases m with
          | obj kvs =>
            simp only [modelId?] at hm
            simp [getKey, hm]
          | null => simp [modelId?] at hm
          | bool b => simp [modelId?] at hm
          | num s => simp [modelId?] at hm
          | str s => simp [modelId?] at hm
          | arr xs => simp [modelId?] at hm
        have hrest := ih is hms
        simp only [extractIds]
        rw [hk, hrest]
        rfl

/-! ### The claims -/

/-- Claim C1 counterexample: `chat` on an HTTP 200 response whose JSON
body lacks the `choices` field raises an uncaught `KeyError` — it does not
return a sentinel, refuting the claim that best-effort operations never
raise for every server response. -/
theorem chat_missing_choices_raises :
    chat (.success ⟨200, .obj [], "\x7b\x7d"⟩) true = .error (.keyError "choices") := rfl

/-- Claim C1 (amended): for every network-level failure and every HTTP
error status (non-200 for `chat` and `list_models`; 400 and above for
`generate_completion` and `generate_embedding`), each best-effort
operation returns its sentinel value — the inline error string, the empty
list, the empty record, the empty vector — and raises nothing; a 200/2xx
response with an unexpected JSON shape, however, raises. -/
theorem best_effort_sentinels :
    ∀ (msg : String) (et : Bool) (r : HttpResponse) (images : List PILImage),
      chat (.failure msg) et = .ok (.str ("Connection error: " ++ msg)) ∧
      (r.status ≠ 200 →
        chat (.success r) et = .ok (.str ("Error: " ++ toString r.status ++ " - " ++ r.text))) ∧
      list_models (.failure msg) = .ok [] ∧
      (r.status ≠ 200 → list_models (.success r) = .ok []) ∧
      generate_completion images (.failure msg) = .ok (.obj []) ∧
      (400 ≤ r.status → generate_completion images (.success r) = .ok (.obj [])) ∧
      generate_embedding (.failure msg) = .ok (.arr []) ∧
      (400 ≤ r.status → generate_embedding (.success r) = .ok (.arr [])) := by
  intro msg et r images
  refine ⟨rfl, ?_, rfl, ?_, rfl, ?_, rfl, ?_⟩
  · intro h
    simp [chat, h]
  · intro h
    simp [list_models, h]
  · intro h
    simp [generate_completion, h]
  · intro h
    simp [generate_embedding, h]

/-- Claim C1 witness: the sentinel clauses evaluated on a concrete HTTP
500 response and a concrete network failure. -/
theorem best_effort_sentinels_witness :
    ((⟨500, .obj [], "oops"⟩ : HttpResponse).status ≠ 200) ∧
    (400 ≤ (⟨500, .obj [], "oops"⟩ : HttpResponse).status) ∧
    chat (.success ⟨500, .obj [], "oops"⟩) true = .ok (.str "Error: 500 - oops") ∧
    list_models (.success ⟨500, .obj [], "oops"⟩) = .ok [] ∧
    generate_completion [] (.success ⟨500, .obj [], "oops"⟩) = .ok (.obj []) ∧
    generate_embedding (.success ⟨500, .obj [], "oops"⟩) = .ok (.arr []) :=
  ⟨by decide, by decide,
    (best_effort_sentinels "boom" true ⟨500, .obj [], "oops"⟩ []).2.1 (by decide),
    (best_effort_sentinels "boom" true ⟨500, .obj [], "oops"⟩ []).2.2.2.1 (by decide),
    (best_effort_sentinels "boom" true ⟨500, .obj [], "oops"⟩ []).2.2.2.2.2.1 (by decide),
    (best_effort_sentinels "boom" true ⟨500, .obj [], "oops"⟩ []).2.2.2.2.2.2.2 (by decide)⟩

/-- Claim C2: on a successful chat response, `enable_thinking=true`
returns the content unchanged; `enable_thinking=false` removes
`think`-delimited spans (case-insensitively, across newlines — the scanner
treats every character alike) and trims whitespace: any span with inner
text free of tag-starting characters disappears, and in particular the
literal example of the spec post-processes to the concatenation of its
surroundings. -/
theorem chat_thinking_tag_removal :
    (∀ s : String, chat (chatOkResponse s) true = .ok (.str s)) ∧
    (∀ mid : String, cleanOfTagStart mid = true →
      chat (chatOkResponse ("A<think>" ++ mid ++ "</think>B")) false = .ok (.str "AB")) ∧
    chat (chatOkResponse "A<think>secret</think>B") false = .ok (.str "AB") := by
  refine ⟨fun s => rfl, ?_, rfl⟩
  intro mid h
  show (Except.ok (Json.str (postprocessThinking false ("A<think>" ++ mid ++ "</think>B")))
    : Except PyExc Json) = Except.ok (Json.str "AB")
  rw [postprocess_think_span mid h]

/-- Claim C2 witness: the general span clause at the spec's own example. -/
theorem chat_thinking_tag_removal_witness :
    cleanOfTagStart "secret" = true ∧
    chat (chatOkResponse ("A<think>" ++ "secret" ++ "</think>B")) false = .ok (.str "AB") :=
  ⟨rfl, chat_thinking_tag_removal.2.1 "secret" rfl⟩

/-- Claim C3: `generate_completion` with at least one image posts to the
chat-completion endpoint with a single user message whose content array is
the prompt text part followed by exactly one image part per image (each a
`data:image/png;base64` URI, per `imagePart`); with no images it posts the
prompt to the plain completion endpoint. -/
theorem generate_completion_image_routing :
    ∀ (model prompt : String) (images : List PILImage),
      (images ≠ [] →
        (generateCompletionRequest model prompt images).endpoint = .chatCompletions ∧
        (generateCompletionRequest model prompt images).payload =
          some (.obj [("model", .str model),
            ("messages", .arr [.obj [("role", .str "user"),
              ("content", .arr (textPart prompt :: images.map imagePart))]]),
            ("stream", .bool false), ("max_tokens", .num "1024"),
            ("temperature", .num "0.7")])) ∧
      (images = [] →
        (generateCompletionRequest model prompt images).endpoint = .completions ∧
        (generateCompletionRequest model prompt images).payload =
          some (.obj [("model", .str model), ("prompt", .str prompt), ("stream", .bool false),
            ("max_tokens", .num "1024"), ("temperature", .num "0.7")])) := by
  intro model prompt images
  cases images with
  | nil => exact ⟨fun h => absurd rfl h, fun _ => ⟨rfl, rfl⟩⟩
  | cons i is => exact ⟨fun _ => ⟨rfl, rfl⟩, fun h => ((List.cons_ne_nil i is) h).elim⟩

/-- Claim C3 witness: one image routes to the chat endpoint with a
text part and one `data:image/png;base64` image part; no image routes to
the plain completion endpoint. -/
theorem generate_completion_image_routing_witness :
    (([⟨"IMG64"⟩] : List PILImage) ≠ []) ∧
    (generateCompletionRequest "m" "p" [⟨"IMG64"⟩]).endpoint = .chatCompletions ∧
    (generateCompletionRequest "m" "p" [⟨"IMG64"⟩]).payload =
      some (.obj [("model", .str "m"),
        ("messages", .arr [.obj [("role", .str "user"),
          ("content", .arr [.obj [("type", .str "text"), ("text", .str "p")],
            .obj [("type", .str "image_url"),
              ("image_url", .obj [("url", .str "data:image/png;base64,IMG64")])]])]]),
        ("stream", .bool false), ("max_tokens", .num "1024"), ("temperature", .num "0.7")]) ∧
    (generateCompletionRequest "m" "p" []).endpoint = .completions :=
  ⟨List.cons_ne_nil (PILImage.mk "IMG64") [],
    ((generate_completion_image_routing "m" "p" [PILImage.mk "IMG64"]).1
      (List.cons_ne_nil (PILImage.mk "IMG64") [])).1,
    ((generate_completion_image_routing "m" "p" [PILImage.mk "IMG64"]).1
      (List.cons_ne_nil (PILImage.mk "IMG64") [])).2,
    ((generate_completion_image_routing "m" "p" []).2 rfl).1⟩

/-- Claim C4 counterexample: the model-listing, embedding, synchronous
completion and streaming completion calls pass no timeout at all — the
claim that every network operation carries an explicit finite timeout is
false at these call sites. -/
theorem requests_without_timeout :
    listModelsRequest.timeoutSecs = none ∧
    (embeddingRequest "m" "text").timeoutSecs = none ∧
    (generateCompletionRequest "m" "p" []).timeoutSecs = none ∧
    (streamCompletionRequest "m" "p" []).timeoutSecs = none :=
  ⟨rfl, rfl, rfl, rfl⟩

/-- Claim C4 (amended): the liveness probe carries an explicit 5-second
timeout and `chat`, `chat_stream` and the async completion carry an
explicit 180-second timeout, but `list_models`, `generate_embedding`,
`generate_completion` and `stream_completion` issue their requests with no
timeout keyword (the library default: wait indefinitely), so those four
operations can hang on the wire. -/
theorem timeout_coverage :
    isServerRunningRequest.timeoutSecs = some 5 ∧
    (∀ model messages, (chatRequest model messages).timeoutSecs = some 180) ∧
    (∀ model messages, (chatStreamRequest model messages).timeoutSecs = some 180) ∧
    (∀ model prompt images,
      (generateCompletionAsyncRequestDefault model prompt images).timeoutSecs = some 180) ∧
    listModelsRequest.timeoutSecs = none ∧
    (∀ model text, (embeddingRequest model text).timeoutSecs = none) ∧
    (∀ model prompt images, (generateCompletionRequest model prompt images).timeoutSecs = none) ∧
    (∀ model prompt images, (streamCompletionRequest model prompt images).timeoutSecs = none) := by
  refine ⟨rfl, fun _ _ => rfl, fun _ _ => rfl, ?_, rfl, fun _ _ => rfl, ?_, ?_⟩
  · intro model prompt images
    cases images <;> rfl
  · intro model prompt images
    cases images <;> rfl
  · intro model prompt images
    cases images <;> rfl

/-- Claim C5: on an HTTP 200 stream consisting of the single delta event
carrying `Hi` followed by the `[DONE]` marker, `chat_stream` yields
exactly the fragment `Hi` and terminates — whatever lines might follow the
marker are never read. -/
theorem chat_stream_done_termination :
    ∀ rest : List String,
      chat_stream (.success 200 ""
        ("data: \x7b\"choices\":[\x7b\"delta\":\x7b\"content\":\"Hi\"\x7d\x7d]\x7d" ::
          "data: [DONE]" :: rest)) true = ["Hi"] :=
  fun _ => rfl

/-- Claim C6: in all three streaming line loops, a line that fails JSON
parsing (and is neither empty nor the `[DONE]` marker) is skipped without
terminating the stream: the loop result on the remaining lines — including
any subsequent well-formed line, which is still yielded — is unchanged. -/
theorem stream_malformed_line_skipped :
    ∀ (et : Bool) (bad : String) (rest : List String),
      bad ≠ "" →
      pyStripStr (unwrapSSE bad) ≠ "[DONE]" →
      parseJson (unwrapSSE bad) = none →
      chatStreamLines et (bad :: rest) = chatStreamLines et rest ∧
      streamCompletionImageLines (bad :: rest) = streamCompletionImageLines rest ∧
      streamCompletionTextLines (bad :: rest) = streamCompletionTextLines rest := by
  intro et bad rest h1 h2 h3
  refine ⟨?_, ?_, ?_⟩
  · rw [chatStreamLines]
    simp only [if_neg h1, if_neg h2, h3]
  · rw [streamCompletionImageLines]
    simp only [if_neg h1, if_neg h2, h3]
  · rw [streamCompletionTextLines]
    simp only [if_neg h1, if_neg h2, h3]

/-- Claim C6 witness: a malformed line ahead of the well-formed `Hi` event
is skipped and the `Hi` fragment is still yielded. -/
theorem stream_malformed_line_skipped_witness :
    ("data: \x7boops" ≠ "") ∧
    (pyStripStr (unwrapSSE "data: \x7boops") ≠ "[DONE]") ∧
    (parseJson (unwrapSSE "data: \x7boops") = none) ∧
    chatStreamLines true ["data: \x7boops",
        "data: \x7b\"choices\":[\x7b\"delta\":\x7b\"content\":\"Hi\"\x7d\x7d]\x7d",
        "data: [DONE]"] =
      chatStreamLines true
        ["data: \x7b\"choices\":[\x7b\"delta\":\x7b\"content\":\"Hi\"\x7d\x7d]\x7d",
         "data: [DONE]"] ∧
    chatStreamLines true
        ["data: \x7b\"choices\":[\x7b\"delta\":\x7b\"content\":\"Hi\"\x7d\x7d]\x7d",
         "data: [DONE]"] = ["Hi"] :=
  ⟨by decide, by decide, rfl,
    (stream_malformed_line_skipped true "data: \x7boops"
      ["data: \x7b\"choices\":[\x7b\"delta\":\x7b\"content\":\"Hi\"\x7d\x7d]\x7d",
       "data: [DONE]"] (by decide) (by decide) rfl).1,
    rfl⟩

/-- Claim C7: `is_server_running` is true exactly when the probe answered
HTTP 200; every network-level failure (connection refused, DNS failure,
timeout — all `RequestException`s) gives false, as does any non-200 status
such as 500; the function is total, so it never raises. -/
theorem is_server_running_status :
    ∀ (msg : String) (r : HttpResponse),
      is_server_running (.failure msg) = false ∧
      is_server_running (.success r) = (r.status == 200) ∧
      is_server_running (.success ⟨500, .obj [], ""⟩) = false :=
  fun _ _ => ⟨rfl, rfl, rfl⟩

/-- Claim C8: on a valid model-listing response — HTTP 200 with a `data`
array each of whose descriptors carries an `id` — `list_models` returns
exactly those ids, in server order, no more and no fewer; on any non-200
status or network failure it returns the empty list without raising. -/
theorem list_models_order :
    ∀ (ms ids : List Json) (txt msg : String) (r : HttpResponse),
      (ms.mapM modelId? = some ids →
        list_models (.success ⟨200, .obj [("data", .arr ms)], txt⟩) = .ok ids) ∧
      list_models (.failure msg) = .ok [] ∧
      (r.status ≠ 200 → list_models (.success r) = .ok []) := by
  intro ms ids txt msg r
  refine ⟨?_, rfl, ?_⟩
  · intro h
    exact extractIds_of_mapM ms ids h
  · intro h
    simp [list_models, h]

/-- Claim C8 witness: a two-model listing returns the two ids in order. -/
theorem list_models_order_witness :
    ([Json.obj [("id", .str "alpha")],
      Json.obj [("object", .str "model"), ("id", .str "beta")]].mapM modelId?
      = some [Json.str "alpha", Json.str "beta"]) ∧
    list_models (.success ⟨200,
      .obj [("data", .arr [Json.obj [("id", .str "alpha")],
        Json.obj [("object", .str "model"), ("id", .str "beta")]])], ""⟩)
      = .ok [Json.str "alpha", Json.str "beta"] :=
  ⟨rfl,
    (list_models_order
      [Json.obj [("id", .str "alpha")], Json.obj [("object", .str "model"), ("id", .str "beta")]]
      [Json.str "alpha", Json.str "beta"] "" "" ⟨0, .null, ""⟩).1 rfl⟩

/-- Claim C9: `generate_embedding` returns the first embedding vector of a
passing response; a passing response with an empty `data` array gives the
empty vector, not a fault; and every network failure or HTTP error status
gives the empty vector without raising. -/
theorem generate_embedding_sentinels :
    ∀ (kvs : List (String × Json)) (e : Json) (restData : List Json)
      (txt msg : String) (st : Nat) (r : HttpResponse),
      (st < 400 → jlookup kvs "embedding" = some e →
        generate_embedding (.success ⟨st, .obj [("data", .arr (Json.obj kvs :: restData))], txt⟩)
          = .ok e) ∧
      (st < 400 →
        generate_embedding (.success ⟨st, .obj [("data", .arr [])], txt⟩) = .ok (.arr [])) ∧
      generate_embedding (.failure msg) = .ok (.arr []) ∧
      (400 ≤ r.status → generate_embedding (.success r) = .ok (.arr [])) := by
  intro kvs e restData txt msg st r
  refine ⟨?_, ?_, rfl, ?_⟩
  · intro h1 h2
    have hn : ¬(400 ≤ st) := by omega
    simp only [generate_embedding]
    rw [if_neg hn]
    show getKey (Json.obj kvs) "embedding" = .ok e
    simp [getKey, h2]
  · intro h1
    have hn : ¬(400 ≤ st) := by omega
    simp only [generate_embedding]
    rw [if_neg hn]
    rfl
  · intro h
    simp [generate_embedding, h]

/-- Claim C9 witness: a 200 response with one embedding returns it; a 200
response with empty data returns the empty vector. -/
theorem generate_embedding_sentinels_witness :
    (200 < 400) ∧
    (jlookup [("embedding", Json.arr [.num "0.5", .num "1"])] "embedding"
      = some (Json.arr [.num "0.5", .num "1"])) ∧
    generate_embedding (.success ⟨200,
      .obj [("data", .arr [Json.obj [("embedding", Json.arr [.num "0.5", .num "1"])]])], ""⟩)
      = .ok (Json.arr [.num "0.5", .num "1"]) ∧
    generate_embedding (.success ⟨200, .obj [("data", .arr [])], ""⟩) = .ok (.arr []) :=
  ⟨by decide, rfl,
    (generate_embedding_sentinels [("embedding", Json.arr [.num "0.5", .num "1"])]
      (Json.arr [.num "0.5", .num "1"]) [] "" "" 200 ⟨0, .null, ""⟩).1 (by decide) rfl,
    (generate_embedding_sentinels [("embedding", Json.arr [.num "0.5", .num "1"])]
      (Json.arr [.num "0.5", .num "1"]) [] "" "" 200 ⟨0, .null, ""⟩).2.1 (by decide)⟩

/-- Claim C10: `chat` and `chat_stream` build their message list as the
history concatenated with the fresh user entry — the store of Python
lists is returned unchanged, so the caller's history list keeps its
contents, and a repeated call with the same history reference builds the
same message list. -/
theorem history_not_mutated :
    ∀ (st : PyStore) (r : Nat) (msg : String),
      (chatBuildMessages st (some r) msg).1 = st ∧
      (chatBuildMessages st (some r) msg).2 = st r ++ [userMessage msg] ∧
      (chatBuildMessages ((chatBuildMessages st (some r) msg).1) (some r) msg).2
        = (chatBuildMessages st (some r) msg).2 ∧
      (chatStreamBuildMessages st (some r) msg).1 = st ∧
      (chatStreamBuildMessages st (some r) msg).2 = st r ++ [userMessage msg] ∧
      (chatStreamBuildMessages ((chatStreamBuildMessages st (some r) msg).1) (some r) msg).2
        = (chatStreamBuildMessages st (some r) msg).2 :=
  fun _ _ _ => ⟨rfl, rfl, rfl, rfl, rfl, rfl⟩

end VLLMClient
